import Mathlib

/-! Verification development for the workshop repository
"from-jupyter-to-production-workshop".

The repository consists of a docker-compose file and six Jupyter notebooks.
This file embeds that content verbatim: the docker-compose services as
structured data, and each notebook as its list of cells (cell type plus the
verbatim source lines, with special characters written via escape codes).
On top of the embedding it proves the claims about the repository: cell
structure, the shell commands demonstrated, acyclicity of the pipeline
dependency structures, and the behaviour of the one nontrivial Python
function (evaluate_model), for which a small name-resolution semantics of
straight-line Python is given.
-/

set_option maxHeartbeats 4000000
set_option maxRecDepth 100000

namespace Workshop

/-- Kind of a docker-compose volume entry: a bind mount of a host path, or a
reference to a named volume declared under the top-level volumes key. -/
inductive MountKind where
  | bind
  | named
  deriving DecidableEq, BEq, Repr

/-- One entry of a service's volumes list in the docker-compose file. -/
structure VolumeMount where
  kind : MountKind
  source : String
  target : String
  deriving DecidableEq, BEq, Repr

/-- One service of the docker-compose file: its key, the image it pulls, the
host/container port pairs it forwards, and its volume mounts. -/
structure Service where
  name : String
  image : String
  ports : List (Nat × Nat)
  volumes : List VolumeMount
  deriving DecidableEq, BEq, Repr

/-- The jupyter service of docker-compose.yml. -/
def jupyterService : Service :=
  Service.mk ("jupyter") ("radtkem/from-jupyter-to-production-baseimage:latest")
    [(8888, 8888), (4141, 4141), (5000, 5000), (7777, 7777)]
    [ VolumeMount.mk MountKind.bind ("./notebooks") ("/workshop/notebooks"),
      VolumeMount.mk MountKind.named ("workspace") ("/workshop/workspace") ]

/-- The airflow service of docker-compose.yml. -/
def airflowService : Service :=
  Service.mk ("airflow") ("radtkem/from-jupyter-to-production-airflow-image:latest")
    [(8080, 8080)]
    [ VolumeMount.mk MountKind.bind ("./notebooks/airflow/dags") ("/usr/local/airflow/dags"),
      VolumeMount.mk MountKind.bind ("./notebooks/airflow/exercise-dataset-airflow") ("/exercise-dataset-airflow"),
      VolumeMount.mk MountKind.named ("workspace") ("/workshop/workspace") ]

/-- All services defined by docker-compose.yml, in file order. -/
def dockerComposeServices : List Service := [jupyterService, airflowService]

/-- The named volumes declared at top level in docker-compose.yml. -/
def namedVolumes : List String := [("workspace")]

/-- The type of a Jupyter notebook cell. -/
inductive CellType where
  | markdown
  | code
  deriving DecidableEq, BEq, Repr

/-- A notebook cell: its type and its verbatim source lines. -/
structure Cell where
  cellType : CellType
  source : List String
  deriving DecidableEq, BEq, Repr

/-- A notebook: a file name (or a description, for the notebooks whose file
name is unknown) and its cells in order. -/
structure Notebook where
  name : String
  cells : List Cell
  deriving DecidableEq, BEq, Repr

def airflowIntroduction : Notebook :=
  Notebook.mk ("notebooks/airflow/airflow-introduction.ipynb") [
    Cell.mk CellType.markdown [
      "# Airflow Classification Pipeline"
    ],
    Cell.mk CellType.markdown [
      "Let\x27s have a look at some of the components that Airflow provides. Please note: Airflow DAGs are to be specified in \x60.py\x60 files, not Jupyter notebooks. This notebook only serves the presentation purpose and can not be directly used in Airflow."
    ],
    Cell.mk CellType.markdown [
      "# Directed Acyclic Graph (DAG)\n",
      "\n",
      "Each Airflow pipeline has to be a directed acyclic graph (i.e. no loops, clear task dependencies).\n",
      "We define a DAG in the following way:\n",
      "\n",
      "\x60\x60\x60python\n",
      "from airflow import DAG\n",
      "\n",
      "# the default args will be passed to all tasks belonging to the DAG\n",
      "default_args = \x7b\n",
      "    \x27owner\x27: \x27airflow\x27,\n",
      "    \x27start_date\x27: datetime(2019, 8, 1),\n",
      "    ...\n",
      "\x7d\n",
      "\n",
      "dag = DAG(\n",
      "    \x27keras2production-pipeline\x27,\n",
      "    default_args=default_args,\n",
      "    schedule_interval=timedelta(days=1),\n",
      "    ...\n",
      ")\n",
      "\n",
      "\x60\x60\x60\n",
      "\n",
      "DAGs need to be placed into the folder \x60$AIRFLOW_HOME/dags\x60, where \x60$AIRFLOW_HOME\x60 is usually set to \x60/usr/local/airflow\x60."
    ],
    Cell.mk CellType.markdown [
      "# Operators\n",
      "\n",
      "Each pipeline consists of steps, which are called operators. Operators execute some kind of task and finish when the task is done. There are also sensors, a special type of operators, which finish when a condition is met (i.e. another task has finished or a file exists). Don\x27t worry so much about the difference between a normal operator and a sensor, just lookup what fits your needs the best in the well-documented API.\n",
      "\n",
      "This might be the most used operator: The \x60PythonOperator\x60.\n",
      "\n",
      "\x60\x60\x60python\n",
      "from airflow.operators.python_operator import PythonOperator\n",
      "\n",
      "def print_sth():\n",
      "    print(\"Our slides are still there!\")\n",
      "    \n",
      "python_task = PythonOperator(\n",
      "    task_id=\"print\",\n",
      "    python_callable=print_sth,\n",
      "    provide_context=False,\n",
      "    dag=dag\n",
      ")\n",
      "\n",
      "\x60\x60\x60\n",
      "\n",
      "This is an example of a sensor:\n",
      "\n",
      "\x60\x60\x60python\n",
      "from airflow.contrib.sensors.file_sensor import FileSensor\n",
      "\n",
      "fs_task = FileSensor(\n",
      "    task_id=\"lookup_file\",\n",
      "    filepath=\"/keras2production/slides/slides.pdf\",\n",
      "    dag=dag\n",
      ")\n",
      "\x60\x60\x60"
    ],
    Cell.mk CellType.markdown [
      "# Connecting Operators\n",
      "\n",
      "Airflow uses the bitshift operators \x60>>\x60 and \x60<<\x60 to connect pipeline steps together (you can also use \x60set_upstream()\x60 or \x60set_downstream()\x60, but just don\x27t...).\n",
      "\n",
      "\x60task1 >> task2\x60 means: \x60task1\x60 will be executed before \x60task2\x60, and vice versa for \x60<<\x60.\n",
      "\n",
      "**Tip**: Only use the \x60>>\x60 to keep your code consistent and readable.\n",
      "\n",
      "Let\x27s connect our operator and sensor that we defined above:\n",
      "\n",
      "\x60\x60\x60python\n",
      "fs_task >> python_task\n",
      "\x60\x60\x60\n",
      "\n",
      "That\x27s it!"
    ],
    Cell.mk CellType.markdown [
      "# XCom\n",
      "\n",
      "Ideally all of our operators and sensors are independent of each other, that is: No variables, states etc. should have to be communicated between them. This allows an easy exchange of tasks. Since we cannot always avoid communication between tasks, Airflow provides the XCom (_cross-communication_) system, which follows a simple push-pull idea.\n",
      "\n",
      "You can push a variable in an operator via \x60xcom_push()\x60 or the \x60return\x60 statement, and pull (i.e. get) the variable in an other task by \x60xcom_pull()\x60.\n",
      "\n",
      "This is an example, how two python operators could communicate with each other via XCom:\n",
      "\n",
      "\x60\x60\x60python\n",
      "def foo():\n",
      "    x = \"hello world\"\n",
      "    return x\n",
      "\n",
      "\n",
      "def bar(**context):\n",
      "    x = context[\"task_instance\"].xcom_pull(task_ids=\"task1\")\n",
      "    print(x)\n",
      "    \n",
      "    \n",
      "task1 = PythonOperator(\n",
      "    task_id=\"task1\",\n",
      "    python_callable=foo,\n",
      ")\n",
      "\n",
      "task2 = PythonOperator(\n",
      "    task_id=\"task2\",\n",
      "    python_callable=bar,\n",
      "    provide_context=True,\n",
      ")\n",
      "\n",
      "task1 >> task2\n",
      "\x60\x60\x60\n",
      "\n",
      "**Note**: The pulling task needs to be provided with context."
    ],
    Cell.mk CellType.markdown [
      "# The web interface\n",
      "\n",
      "To monitor and manage your pipelines, Airflow offers a web interface. You can find it today at \x60localhost:8080\x60."
    ],
    Cell.mk CellType.markdown [
      "# There is so much more!\n",
      "\n",
      "Airflow has many concepts to offer, which allow a robust but flexible execution. Some highlights are:\n",
      "- Error and retry management\n",
      "- Different executors (Celery, Sequential, Local), allowing for parallel execution on multiple nodes\n",
      "- Integration with GCP, AWS, Azure, ...\n",
      "\n",
      "Check out the [documentation page](https://airflow.apache.org/) for more information."
    ],
    Cell.mk CellType.markdown [
      "# Run Airflow\n",
      "Taken from [Quick Start](https://airflow.apache.org/docs/stable/start.html):"
    ],
    Cell.mk CellType.code [
      "# install from pypi using pip\n",
      "!pip install apache-airflow==1.8.1"
    ],
    Cell.mk CellType.code [
      "# initialize the database\n",
      "!conda list werkzeug"
    ],
    Cell.mk CellType.code [
      "# start the web server, default port is 8080\n",
      "!airflow webserver -p 8080"
    ],
    Cell.mk CellType.code []
  ]

def airflowExercise : Notebook :=
  Notebook.mk ("unnamed/part_001 (Airflow exercise notebook)") [
    Cell.mk CellType.markdown [
      "# Airflow Classification Pipeline"
    ],
    Cell.mk CellType.markdown [
      "Let\x27s have a look at some of the components that Airflow provides. Please note: Airflow DAGs are to be specified in \x60.py\x60 files, not Jupyter notebooks. This notebook only serves the presentation purpose and can not be directly used in Airflow."
    ],
    Cell.mk CellType.markdown [
      "# Directed Acyclic Graph (DAG)\n",
      "\n",
      "Each Airflow pipeline has to be a directed acyclic graph (i.e. no loops, clear task dependencies).\n",
      "We define a DAG in the following way:\n",
      "\n",
      "\x60\x60\x60python\n",
      "from airflow import DAG\n",
      "\n",
      "# the default args will be passed to all tasks belonging to the DAG\n",
      "default_args = \x7b\n",
      "    \x27owner\x27: \x27airflow\x27,\n",
      "    \x27start_date\x27: datetime(2019, 8, 1),\n",
      "    ...\n",
      "\x7d\n",
      "\n",
      "dag = DAG(\n",
      "    \x27jupyter2production-pipeline\x27,\n",
      "    default_args=default_args,\n",
      "    schedule_interval=timedelta(days=1),\n",
      "    ...\n",
      ")\n",
      "\n",
      "\x60\x60\x60\n",
      "\n",
      "DAGs need to be placed into the folder \x60$AIRFLOW_HOME/dags\x60, where \x60$AIRFLOW_HOME\x60 is usually set to \x60/usr/local/airflow\x60."
    ],
    Cell.mk CellType.markdown [
      "# Operators\n",
      "\n",
      "Each pipeline consists of steps, which are called operators. Operators execute some kind of task and finish when the task is done.\n",
      "Examples: \x60BashOperator\x60, \x60PythonOperator\x60, \x60DockerOperator\x60, \x60PostgresOperator\x60, ...\n",
      "\n",
      "There are also sensors, a special type of operators, which finish when a condition is met (i.e. another task has finished or a file exists). Don\x27t worry so much about the difference between a normal operator and a sensor, just lookup what fits your needs the best in the well-documented [API](http://airflow.apache.org/docs/stable/_api/airflow/operators/index.html).\n",
      "\n",
      "This might be the most used operator: The \x60PythonOperator\x60.\n",
      "\n",
      "\x60\x60\x60python\n",
      "from airflow.operators.python_operator import PythonOperator\n",
      "\n",
      "def print_sth():\n",
      "    print(\"Our slides are still there!\")\n",
      "    \n",
      "python_task = PythonOperator(\n",
      "    task_id=\"print\",\n",
      "    python_callable=print_sth,\n",
      "    provide_context=False,\n",
      "    dag=dag\n",
      ")\n",
      "\n",
      "\x60\x60\x60\n",
      "Note that Airflow will pass a set of keyword arguments like \x60execution_date\x60 that can be used in your function if \x60provide_context\x60 is set True.\n",
      "\n",
      "This is an example of a sensor:\n",
      "\n",
      "\x60\x60\x60python\n",
      "from airflow.contrib.sensors.file_sensor import FileSensor\n",
      "\n",
      "fs_task = FileSensor(\n",
      "    task_id=\"lookup_file\",\n",
      "    filepath=\"/jupyter2production/slides/slides.pdf\",\n",
      "    dag=dag\n",
      ")\n",
      "\x60\x60\x60\n",
      "\n"
    ],
    Cell.mk CellType.markdown [
      "# Connecting Operators\n",
      "\n",
      "Airflow uses the bitshift operators \x60>>\x60 and \x60<<\x60 to connect pipeline steps together (you can also use \x60set_upstream()\x60 or \x60set_downstream()\x60, but just don\x27t...).\n",
      "\n",
      "\x60task1 >> task2\x60 means: \x60task1\x60 will be executed before \x60task2\x60, and vice versa for \x60<<\x60.\n",
      "\n",
      "**Tip**: Only use the \x60>>\x60 to keep your code consistent and readable.\n",
      "\n",
      "Let\x27s connect our operator and sensor that we defined above:\n",
      "\n",
      "\x60\x60\x60python\n",
      "fs_task >> python_task\n",
      "\x60\x60\x60\n",
      "\n",
      "That\x27s it!"
    ],
    Cell.mk CellType.markdown [
      "# XCom\n",
      "\n",
      "Ideally all of our operators and sensors are independent of each other, that is: No variables, states etc. should have to be communicated between them. This allows an easy exchange of tasks. Since we cannot always avoid communication between tasks, Airflow provides the XCom (_cross-communication_) system, which follows a simple push-pull idea.\n",
      "\n",
      "You can push a variable in an operator via \x60xcom_push()\x60 or the \x60return\x60 statement, and pull (i.e. get) the variable in an other task by \x60xcom_pull()\x60.\n",
      "\n",
      "This is an example, how two python operators could communicate with each other via XCom:\n",
      "\n",
      "\x60\x60\x60python\n",
      "def foo():\n",
      "    x = \"hello world\"\n",
      "    return x\n",
      "\n",
      "\n",
      "def bar(**context):\n",
      "    x = context[\"task_instance\"].xcom_pull(task_ids=\"task1\")\n",
      "    print(x)\n",
      "    \n",
      "    \n",
      "task1 = PythonOperator(\n",
      "    task_id=\"task1\",\n",
      "    python_callable=foo,\n",
      ")\n",
      "\n",
      "task2 = PythonOperator(\n",
      "    task_id=\"task2\",\n",
      "    python_callable=bar,\n",
      "    provide_context=True,\n",
      ")\n",
      "\n",
      "task1 >> task2\n",
      "\x60\x60\x60\n",
      "\n",
      "**Note**: The pulling task needs to be provided with context."
    ],
    Cell.mk CellType.markdown [
      "# The web interface\n",
      "\n",
      "To monitor and manage your pipelines, Airflow offers a web interface. You can find it today at [localhost:8080](http://localhost:8080)"
    ],
    Cell.mk CellType.markdown [
      "# There is so much more!\n",
      "\n",
      "Airflow has many concepts to offer, which allow a robust but flexible execution. Some highlights are:\n",
      "- Error and retry management\n",
      "- Different executors (Celery, Sequential, Local), allowing for parallel execution on multiple nodes\n",
      "- Integration with GCP, AWS, Azure, ...\n",
      "\n",
      "Check out the [documentation page](https://airflow.apache.org/) for more information."
    ]
  ]

def dvcIntroduction : Notebook :=
  Notebook.mk ("notebooks/dvc/dvc_introduction.ipynb") [
    Cell.mk CellType.markdown [
      "# Lightweight Development Pipelines with DVC\n",
      "\n",
      "In this notebook we will highlight important elements of DVC. You can find extensive information on their [website](https://dvc.org).\n",
      "\n",
      "As a showcase we will implement a simple regression pipeline."
    ],
    Cell.mk CellType.markdown [
      "### Some Preparations\n",
      "We create a new directory, copy some files and change the cwd."
    ],
    Cell.mk CellType.code [
      "%%bash\n",
      "mkdir /workshop/workspace/dvc_intro -p\n",
      "cp /workshop/notebooks/dvc/\x7bdvc_exercise.py,deployment_location,dvc_introduction.py,params.yaml\x7d /workshop/workspace/dvc_intro\n",
      "cp -r /workshop/notebooks/dvc/data /workshop/workspace/dvc_intro"
    ],
    Cell.mk CellType.code [
      "import os\n",
      "os.chdir(\"/workshop/workspace/dvc_intro\")"
    ],
    Cell.mk CellType.markdown [
      "### Initialize Git"
    ],
    Cell.mk CellType.markdown [
      "DVC works on top of git.."
    ],
    Cell.mk CellType.code [
      "!git init"
    ],
    Cell.mk CellType.markdown [
      "You might want to set your git configuration."
    ],
    Cell.mk CellType.code [
      "!git config -\x2dglobal user.email \"you@example.com\"\n",
      "!git config -\x2dglobal user.name \"Your Name\""
    ],
    Cell.mk CellType.markdown [
      "### Initialize DVC"
    ],
    Cell.mk CellType.code [
      "!dvc init -f"
    ],
    Cell.mk CellType.markdown [
      "We can either add files to our versioning system by manually adding them or implicitly in a pipeline."
    ],
    Cell.mk CellType.code [
      "!dvc add data/image.jpg"
    ],
    Cell.mk CellType.markdown [
      "Optional: We add a new remote storage (could be S3, GCS, SSH, ...)"
    ],
    Cell.mk CellType.code [
      "!dvc remote add -d -f local_storage /tmp/dvc_introduction"
    ],
    Cell.mk CellType.code [
      "!git status"
    ],
    Cell.mk CellType.code [
      "!git add ."
    ],
    Cell.mk CellType.code [
      "!git commit -m \"initial commit\""
    ],
    Cell.mk CellType.markdown [
      "Let\x27s check our current status. Attention: DVC does not have a sophisticated git-like \x60stage area\x60, but a cache-directory, that is being synced with the remote."
    ],
    Cell.mk CellType.code [
      "!dvc status -c"
    ],
    Cell.mk CellType.code [
      "!dvc push"
    ],
    Cell.mk CellType.markdown [
      "### Building a Pipeline"
    ],
    Cell.mk CellType.code [
      "%%sh\n",
      "dvc run -n download \\\n",
      " -d dvc_introduction.py \\\n",
      " -d http://archive.ics.uci.edu/ml/machine-learning-databases/wine-quality/winequality-red.csv \\\n",
      " -o data/winequality-red.csv \\\n",
      "python dvc_introduction.py download_data http://archive.ics.uci.edu/ml/machine-learning-databases/wine-quality/winequality-red.csv data/winequality-red.csv"
    ],
    Cell.mk CellType.code [
      "%%sh \n",
      "dvc run -n split \\\n",
      "-d dvc_introduction.py \\\n",
      "-d data/winequality-red.csv \\\n",
      "-o data/x_train.csv -o data/y_train.csv -o data/x_test.csv -o data/y_test.csv \\\n",
      "python dvc_introduction.py split_data data/winequality-red.csv"
    ],
    Cell.mk CellType.code [
      "%%sh \n",
      "dvc run -n train \\\n",
      "-d dvc_introduction.py \\\n",
      "-d data/x_train.csv -d data/y_train.csv \\\n",
      "-o data/model \\\n",
      "-p alpha,l1_ratio \\\n",
      "python dvc_introduction.py train_model data/x_train.csv data/y_train.csv"
    ],
    Cell.mk CellType.code [
      "%%sh\n",
      "dvc run -n evaluate \\\n",
      "-d dvc_introduction.py \\\n",
      "-d data/model -d data/x_test.csv -d data/y_test.csv \\\n",
      "-m data/result.json \\\n",
      "python dvc_introduction.py evaluate_model data/model data/x_test.csv data/y_test.csv"
    ],
    Cell.mk CellType.code [
      "!git add .\n",
      "!git commit -m \"Add pipeline\""
    ],
    Cell.mk CellType.markdown [
      "### Inspecting and Modifying a Pipeline "
    ],
    Cell.mk CellType.code [
      "!dvc dag"
    ],
    Cell.mk CellType.code [
      "!dvc status -c"
    ],
    Cell.mk CellType.code [
      "!dvc push"
    ],
    Cell.mk CellType.code [
      "!dvc status -c"
    ],
    Cell.mk CellType.markdown [
      "Let\x27s modify a file and reproduce our pipeline!"
    ],
    Cell.mk CellType.code [
      "!dvc status"
    ],
    Cell.mk CellType.code [
      "!dvc repro"
    ],
    Cell.mk CellType.markdown [
      "### Compare Experiments"
    ],
    Cell.mk CellType.code [
      "!sed -i -e \"s/alpha:\\s0.5/alpha: 0.6/g\" params.yaml"
    ],
    Cell.mk CellType.code [
      "!dvc repro\n",
      "!dvc metrics diff"
    ],
    Cell.mk CellType.markdown [
      "It is also possible to compare results from different branches."
    ],
    Cell.mk CellType.code [
      "%%bash\n",
      "git checkout -b experiment_1\n",
      "git add .\n",
      "git commit -m \"changed parameter alpha\"\n",
      "\n",
      "dvc metrics diff master experiment_1"
    ],
    Cell.mk CellType.markdown [
      "#### More Features"
    ],
    Cell.mk CellType.markdown [
      "Get a file from another (external) git+DVC repository."
    ],
    Cell.mk CellType.code [
      "!dvc get https://github.com/iterative/example-get-started model.pkl"
    ],
    Cell.mk CellType.code [
      "!rm model.pkl"
    ],
    Cell.mk CellType.markdown [
      "Get a file *including* its .dvc file from another (external) git+DVC repository."
    ],
    Cell.mk CellType.code [
      "!dvc import https://github.com/iterative/example-get-started model.pkl"
    ],
    Cell.mk CellType.code [
      "!cat model.pkl.dvc"
    ],
    Cell.mk CellType.markdown [
      "#### Clean-up"
    ],
    Cell.mk CellType.code [
      "import os\n",
      "os.chdir(\"/workshop/notebooks/dvc\")"
    ],
    Cell.mk CellType.code [
      "%%sh\n",
      "rm -rf /workshop/workspace/dvc_intro\n",
      "rm -rf /tmp/dvc_introduction"
    ],
    Cell.mk CellType.code []
  ]

def fastapiIntroduction : Notebook :=
  Notebook.mk ("notebooks/fastapi/FastAPI_Introduction.ipynb") [
    Cell.mk CellType.markdown [
      "# FastAPI - Building fast and scalable REST APIs with Python\n",
      "\n",
      "From the FastAPI docs: *FastAPI is a modern, fast (high-performance), web framework for building APIs with Python 3.6+ based on standard Python type hints.*\n",
      "\n",
      "As data scientists we usually build models that are trained on data and optimised on some metrics. At some point, a model needs to be integrated into existing processes, systems and applications. One way to do this is build a microservice that is running inference. FastAPI is a framework that will help us to build a quick REST API that can be integrated into the existing enterprise landscape. "
    ],
    Cell.mk CellType.markdown [
      "## What is a REST API?\n",
      "If REST APIs are new to you, feel free to read this article [API Guide for Data Scientists](https://towardsdatascience.com/api-guide-for-data-scientists-e373f997ed61)."
    ],
    Cell.mk CellType.markdown [
      "## Why is FastAPI a great choice for inference?\n",
      "- High Performance: FastAPI sits on top of Starlette and Pydantic. Starlette is a very low level API framework. FastAPI provides a great abstraction around the Startlette Framework. Compared to other language like NodeJS and Go it provides a similar performance and is on one of the fastest Python frameworks that is available.\n",
      "- Huge productivity: It\x27s very fast to code with FastAPI. In the docs they say the following: *Increase the speed to develop features by about 200% to 300%.*\n",
      "- Fewer bugs: Reduce about 40% of human (developer) induced errors. *\n",
      "- Intuitive: Great editor support. Completion everywhere. Less time debugging.\n",
      "- Easy: Designed to be easy to use and learn. Less time reading docs.\n",
      "- Short: Minimize code duplication. Multiple features from each parameter declaration. Fewer bugs.\n",
      "- Robust: Get production-ready code. With automatic interactive documentation.\n",
      "- Standards-based: Based on (and fully compatible with) the open standards for APIs: OpenAPI (previously known as Swagger) and JSON Schema."
    ],
    Cell.mk CellType.markdown [
      "## Let\x27s jump straight into the framework"
    ],
    Cell.mk CellType.code [
      "# Installing fastapi and uvicorn to the run the application\n",
      "!pip install fastapi uvicorn"
    ],
    Cell.mk CellType.markdown [
      "Exercise: run the cell below open the API in the browser (localhost:7777/docs) and execute a calculation"
    ],
    Cell.mk CellType.code [
      "!uvicorn hello_world_app:app -\x2dport 7777 -\x2dhost 0.0.0.0"
    ],
    Cell.mk CellType.markdown [
      "# Let\x27s add inference"
    ],
    Cell.mk CellType.code [
      "!uvicorn main:app -\x2dport 7777 -\x2dhost 0.0.0.0"
    ]
  ]

def fastapiExercise : Notebook :=
  Notebook.mk ("unnamed/part_002 first document (FastAPI notebook)") [
    Cell.mk CellType.markdown [
      "# FastAPI - Building fast and scalable REST APIs with Python\n",
      "\n",
      "From the FastAPI docs: *FastAPI is a modern, fast (high-performance), web framework for building APIs with Python 3.6+ based on standard Python type hints.*\n",
      "\n",
      "As data scientists we usually build models that are trained on data and optimised on some metrics. At some point, a model needs to be integrated into existing processes, systems and applications. One way to do this is build a microservice that is running inference. FastAPI is a framework that will help us to build a quick REST API that can be integrated into the existing enterprise landscape. "
    ],
    Cell.mk CellType.markdown [
      "## What is a REST API?\n",
      "If REST APIs are new to you, feel free to read this article [API Guide for Data Scientists](https://towardsdatascience.com/api-guide-for-data-scientists-e373f997ed61)."
    ],
    Cell.mk CellType.markdown [
      "## Why is FastAPI a great choice for inference?\n",
      "- High Performance: FastAPI sits on top of Starlette and Pydantic. Starlette is a very low level API framework. FastAPI provides a great abstraction around the Startlette Framework. Compared to other language like NodeJS and Go it provides a similar performance and is on one of the fastest Python frameworks that is available.\n",
      "- Huge productivity: It\x27s very fast to code with FastAPI. In the docs they say the following: *Increase the speed to develop features by about 200% to 300%.*\n",
      "- Fewer bugs: Reduce about 40% of human (developer) induced errors. *\n",
      "- Intuitive: Great editor support. Completion everywhere. Less time debugging.\n",
      "- Easy: Designed to be easy to use and learn. Less time reading docs.\n",
      "- Short: Minimize code duplication. Multiple features from each parameter declaration. Fewer bugs.\n",
      "- Robust: Get production-ready code. With automatic interactive documentation.\n",
      "- Standards-based: Based on (and fully compatible with) the open standards for APIs: OpenAPI (previously known as Swagger) and JSON Schema."
    ],
    Cell.mk CellType.markdown [
      "## Let\x27s jump straight into the framework"
    ],
    Cell.mk CellType.code [
      "# Installing fastapi and uvicorn to the run the application\n",
      "!pip install fastapi uvicorn onnxruntime"
    ],
    Cell.mk CellType.markdown [
      "Exercise: run the cell below open the API in the browser (localhost:7777/docs) and execute a calculation"
    ],
    Cell.mk CellType.code [
      "!uvicorn hello_world_app:app -\x2dport 7777 -\x2dhost 0.0.0.0"
    ],
    Cell.mk CellType.markdown [
      "# Let\x27s add inference"
    ],
    Cell.mk CellType.code [
      "!uvicorn main:app -\x2dport 7777 -\x2dhost 0.0.0.0"
    ],
    Cell.mk CellType.code []
  ]

def kedroExercise : Notebook :=
  Notebook.mk ("unnamed/part_002 second document (Kedro exercise notebook)") [
    Cell.mk CellType.markdown [
      "# Task: Extend Kedro Pipeline\n",
      "\n",
      "In this exercise, you will get more familier with Kedro by extending the workflow pipeline shown in the introduction.\n",
      "\n",
      "**Note that the introduction notebook should be run prior to this exercise.**\n",
      "\n",
      "Let\x27s first change the working directory to the existing project."
    ],
    Cell.mk CellType.code [
      "import os\n",
      "os.chdir(\"/workshop/workspace/workflow-tutorial\")"
    ],
    Cell.mk CellType.markdown [
      "## Subtask I: Add additional node to pipeline"
    ],
    Cell.mk CellType.markdown [
      "After training the model, it should be evaluated. Create a new Kedro \x60node\x60 that takes as input the model, and the features \x60x_test\x60 and target \x60y_test\x60.\n",
      "\n",
      "The output should be \x60evaluation_metric\x60: a json including several metrics.\n",
      "\n",
      "The following function can be used."
    ],
    Cell.mk CellType.code [
      "from typing import Dict\n",
      "import numpy as np\n",
      "\n",
      "from sklearn.pipeline import Pipeline\n",
      "from sklearn.metrics import mean_squared_error, mean_absolute_error, r2_score\n",
      "\n",
      "def evaluate_model(pipe: Pipeline, x_test: np.ndarray, y_test: np.ndarray) -> Dict:\n",
      "    \"\"\"Calculate the coefficient of determination and log the result.\n",
      "\n",
      "        Args:\n",
      "            pipe: Trained model.\n",
      "            X_test: Testing data of independent features.\n",
      "            y_test: Target.\n",
      "        Returns:\n",
      "            json with scores\n",
      "\n",
      "    \"\"\"\n",
      "    y_pred = pipe.predict(x_test)\n",
      "    rmse = np.sqrt(mean_squared_error(y_test, y_pred))\n",
      "    mae = mean_absolute_error(y_test, y_pred)\n",
      "    r2 = r2_score(y_test, y_pred)\n",
      "\n",
      "    mlflow.log_metric(\"rmse\", rmse)\n",
      "    mlflow.log_metric(\"mae\", mae)\n",
      "    mlflow.log_metric(\"r2\", r2)\n",
      "\n",
      "    logger = logging.getLogger(__name__)\n",
      "    logger.info(\"Model has a coefficient R^2 of %.3f.\", r2)\n",
      "\n",
      "    return \x7b\"train\": \x7b\"rmse\": float(rmse),\n",
      "                      \"mae\": float(mae),\n",
      "                      \"r2\": float(r2)\x7d\x7d"
    ],
    Cell.mk CellType.markdown [
      "You need to add this function to \x60workspace/workflow-tutorial/src/workflow_tutorial/pipelines/nodes.py\x60."
    ],
    Cell.mk CellType.markdown [
      "### Extend existing pipeline"
    ],
    Cell.mk CellType.code [
      "%%writefile src/workflow_tutorial/pipelines/pipeline.py\n",
      "\n",
      "from kedro.pipeline import Pipeline, node\n",
      "\n",
      "from .nodes import evaluate_model, split_data, train_model\n",
      "\n",
      "\n",
      "def create_pipeline(**kwargs):\n",
      "    return Pipeline(\n",
      "        [\n",
      "            node(\n",
      "                func=split_data,\n",
      "                inputs=[\"wines-red\", \"parameters\"],\n",
      "                outputs=[\"x_train\", \"x_test\", \"y_train\", \"y_test\"],\n",
      "                name=\"splitting_data\",\n",
      "            ),\n",
      "            node(\n",
      "                func=train_model,\n",
      "                inputs=[\"x_train\", \"y_train\", \"parameters\"],\n",
      "                outputs=\"model\",\n",
      "                name=\"training_model\",\n",
      "            ),\n",
      "            node(\n",
      "                func=evaluate_model,\n",
      "                inputs=[\"model\", \"x_test\", \"y_test\"],\n",
      "                outputs=\"evaluation_metric\",\n",
      "                name=\"evaluating_model\",\n",
      "            ),\n",
      "        ]\n",
      "    )"
    ],
    Cell.mk CellType.markdown [
      "### Test and visualize pipeline"
    ],
    Cell.mk CellType.code [
      "!kedro run"
    ],
    Cell.mk CellType.code [
      "!kedro viz -\x2dhost=0.0.0.0 -\x2dno-browser"
    ],
    Cell.mk CellType.markdown [
      "## Optional Subtask II: MLflow Tracking\n",
      "Run experiments with different parameters, preprocessing and feature engineering steps, ... and compare results with the MLflow tracking UI."
    ],
    Cell.mk CellType.code [
      "!kedro run -\x2dparams alpha:0.1,l1_ratio:0.1"
    ],
    Cell.mk CellType.code [
      "!mlflow ui -\x2dhost=0.0.0.0"
    ],
    Cell.mk CellType.markdown [
      "## Subtask III: Add second pipeline\n",
      "In the introduction, we have build a pipeline that predicts the quality of **red** wine.\n",
      "Let\x27s now build a second Pipeline that predicts the quality of **white** wine."
    ],
    Cell.mk CellType.markdown [
      "### Set Parameters"
    ],
    Cell.mk CellType.markdown [
      "Setting the parameters.."
    ],
    Cell.mk CellType.code [
      "%%writefile conf/base/parameters.yml\n",
      "test_size: 0.25\n",
      "random_state: 42\n",
      "\n",
      "alpha: 0.5\n",
      "l1_ratio: 0.5\n",
      "    \n",
      "white_wine_data_url: \x27http://archive.ics.uci.edu/ml/machine-learning-databases/wine-quality/winequality-white.csv\x27"
    ],
    Cell.mk CellType.markdown [
      "## Set up the data\n",
      "Instead of using \x60wget\x60, create an additional node that downloads the [Wine Quality Data Set](http://archive.ics.uci.edu/ml/machine-learning-databases/wine-quality/winequality-white.csv) for white wines! You can use the following function."
    ],
    Cell.mk CellType.code [
      "import pandas as pd\n",
      "\n",
      "def download_data(url: str) -> pd.DataFrame: \n",
      "    \"\"\"Download data from url to path\n",
      "        Args:\n",
      "            url: source\n",
      "        Returns: pandas DataFrame\n",
      "    \"\"\"\n",
      "    data = pd.read_csv(url, sep=\x27;\x27)\n",
      "    \n",
      "    logger = logging.getLogger(__name__)\n",
      "    logger.info(f\"Data downloaded from \x7burl\x7d\")\n",
      "\n",
      "    return data"
    ],
    Cell.mk CellType.markdown [
      "### Register the datasets\n",
      "Register the dataset in the catalog! Note that the function \x60download_data\x60 already knows that the file should be loaded with \x60;\x60 as separator."
    ],
    Cell.mk CellType.code [
      "%%writefile conf/base/catalog.yml\n",
      "\n",
      "wines-red:\n",
      "  type: pandas.CSVDataSet\n",
      "  filepath: data/01_raw/winequality-red.csv\n",
      "  load_args:\n",
      "    sep: \x27;\x27\n",
      "\n",
      "wines-white:\n",
      "  type: pandas.CSVDataSet\n",
      "  filepath: data/01_raw/winequality-white.csv"
    ],
    Cell.mk CellType.markdown [
      "## Create the pipeline\n",
      "Create the new pipeline in \x60src/workflow_tutorial/pipelines/pipeline.py\x60."
    ],
    Cell.mk CellType.code [
      "%%writefile src/workflow_tutorial/pipelines/pipeline.py\n",
      "\n",
      "from kedro.pipeline import Pipeline, node\n",
      "\n",
      "from .nodes import evaluate_model, split_data, train_model, download_data\n",
      "\n",
      "\n",
      "def create_red_wine_pipeline(**kwargs):\n",
      "    return Pipeline(\n",
      "        [\n",
      "            node(\n",
      "                func=split_data,\n",
      "                inputs=[\"wines-red\", \"parameters\"],\n",
      "                outputs=[\"x_train_red\", \"x_test_red\", \"y_train_red\", \"y_test_red\"],\n",
      "                name=\"splitting_red_wine_data\",\n",
      "            ),\n",
      "            node(\n",
      "                func=train_model,\n",
      "                inputs=[\"x_train_red\", \"y_train_red\", \"parameters\"],\n",
      "                outputs=\"model_red\",\n",
      "                name=\"training_red_wine_model\",\n",
      "            ),\n",
      "            node(\n",
      "                func=evaluate_model,\n",
      "                inputs=[\"model_red\", \"x_test_red\", \"y_test_red\"],\n",
      "                outputs=\"evaluation_metrics_red\",\n",
      "                name=\"evaluating_red_wine_model\",\n",
      "            ),\n",
      "        ]\n",
      "    )\n",
      "\n",
      "def create_white_wine_pipeline(**kwargs):\n",
      "    return Pipeline(\n",
      "        [\n",
      "            node(\n",
      "                func=download_data,\n",
      "                inputs=[\"params:white_wine_data_url\"],\n",
      "                outputs=\"wines-white\",\n",
      "                name=\"download_white_wine_data\",\n",
      "            ),\n",
      "            node(\n",
      "                func=split_data,\n",
      "                inputs=[\"wines-white\", \"parameters\"],\n",
      "                outputs=[\"x_train_white\", \"x_test_white\", \"y_train_white\", \"y_test_white\"],\n",
      "                name=\"splitting_white_wine_data\",\n",
      "            ),\n",
      "            node(\n",
      "                func=train_model,\n",
      "                inputs=[\"x_train_white\", \"y_train_white\", \"parameters\"],\n",
      "                outputs=\"model_white\",\n",
      "                name=\"training_white_wine_model\",\n",
      "            ),\n",
      "            node(\n",
      "                func=evaluate_model,\n",
      "                inputs=[\"model_white\", \"x_test_white\", \"y_test_white\"],\n",
      "                outputs=\"evaluation_metrics_white\",\n",
      "                name=\"evaluating_white_wine_model\",\n",
      "            ),\n",
      "        ]\n",
      "    )"
    ],
    Cell.mk CellType.markdown [
      "### Register the pipeline\n",
      "You need to register the pipeline in \x60src/workflow_tutorial/hooks.py\x60.\n",
      "\n",
      "Note that \x60register_pipelines\x60 returns \x60Dict[str, Pipeline]\x60, hence, you can return multiple pipelines for each type of wine.\n",
      "\n",
      "The default pipeline usually comprises all possible pipelines: You can simply add \x60red_wine_pipeline + white_wine_pipeline\x60."
    ],
    Cell.mk CellType.code [
      "%%writefile src/workflow_tutorial/hooks.py\n",
      "\n",
      "\"\"\"Project hooks.\"\"\"\n",
      "from typing import Any, Dict, Iterable, Optional\n",
      "\n",
      "from kedro.config import ConfigLoader\n",
      "from kedro.framework.hooks import hook_impl\n",
      "from kedro.io import DataCatalog\n",
      "from kedro.pipeline import Pipeline\n",
      "from kedro.versioning import Journal\n",
      "\n",
      "from workflow_tutorial.pipelines import pipeline\n",
      "\n",
      "class ProjectHooks:\n",
      "    @hook_impl\n",
      "    def register_pipelines(self) -> Dict[str, Pipeline]:\n",
      "        \"\"\"Register the project\x27s pipeline.\n",
      "\n",
      "        Returns:\n",
      "            A mapping from a pipeline name to a \x60\x60Pipeline\x60\x60 object.\n",
      "\n",
      "        \"\"\"\n",
      "        red_wine_pipeline = pipeline.create_red_wine_pipeline()\n",
      "        white_wine_pipeline = pipeline.create_white_wine_pipeline()\n",
      "        \n",
      "        return \x7b\n",
      "            \"red\": red_wine_pipeline,\n",
      "            \"white\": white_wine_pipeline,\n",
      "            \"__default__\": red_wine_pipeline + white_wine_pipeline,\n",
      "        \x7d\n",
      "\n",
      "    @hook_impl\n",
      "    def register_config_loader(self, conf_paths: Iterable[str]) -> ConfigLoader:\n",
      "        return ConfigLoader(conf_paths)\n",
      "\n",
      "    @hook_impl\n",
      "    def register_catalog(\n",
      "        self,\n",
      "        catalog: Optional[Dict[str, Dict[str, Any]]],\n",
      "        credentials: Dict[str, Dict[str, Any]],\n",
      "        load_versions: Dict[str, str],\n",
      "        save_version: str,\n",
      "        journal: Journal,\n",
      "    ) -> DataCatalog:\n",
      "        return DataCatalog.from_config(\n",
      "            catalog, credentials, load_versions, save_version, journal\n",
      "        )\n",
      "\n",
      "\n",
      "project_hooks = ProjectHooks()"
    ],
    Cell.mk CellType.markdown [
      "## Run the pipeline\n",
      "You can either run the full (default) project pipeline or a pipeline specified with the \x60-\x2dpipeline\x60 option."
    ],
    Cell.mk CellType.code [
      "#!kedro run -\x2dpipeline=red"
    ],
    Cell.mk CellType.code [
      "!kedro run -p"
    ],
    Cell.mk CellType.markdown [
      "## Kedro Visualization\n",
      "Visualize the pipeline using the kedro-viz plugin."
    ],
    Cell.mk CellType.code [
      "!kedro viz -\x2dhost=0.0.0.0 -\x2dno-browser"
    ],
    Cell.mk CellType.markdown [
      "## Optional Subtask IV: Add data version control\n",
      "Add git and data version control (DVC - already installed) to the project!"
    ],
    Cell.mk CellType.code [
      "!git init\n",
      "!dvc init"
    ],
    Cell.mk CellType.markdown [
      "Add dvc remote storage (local)."
    ],
    Cell.mk CellType.code [
      "!dvc remote add -d -f local_storage /tmp/kedro"
    ],
    Cell.mk CellType.markdown [
      "Commit changes."
    ],
    Cell.mk CellType.code [
      "# for now let\x27s not track the mlflow runs..\n",
      "!echo $\x27\\nmlruns/**\x27 >> .gitignore\n",
      "!git add ."
    ],
    Cell.mk CellType.code [
      "# If necessary, configure your git..\n",
      "#!git config -\x2dglobal user.email \"you@example.com\"\n",
      "#!git config -\x2dglobal user.name \"Your Name\"\n",
      "!git commit -m \"initial commit\""
    ],
    Cell.mk CellType.markdown [
      "Add the model pickle and the metrics file to the catalog in order to not only store them as a Kedro \x60MemoryDataSet\x60 but locally."
    ],
    Cell.mk CellType.code [
      "%%writefile conf/base/catalog.yml\n",
      "\n",
      "wines-red:\n",
      "  type: pandas.CSVDataSet\n",
      "  filepath: data/01_raw/winequality-red.csv\n",
      "  load_args:\n",
      "    sep: \x27;\x27\n",
      "\n",
      "wines-white:\n",
      "  type: pandas.CSVDataSet\n",
      "  filepath: data/01_raw/winequality-white.csv\n",
      "\n",
      "model_red:\n",
      "  type: pickle.PickleDataSet\n",
      "  filepath: data/06_models/model_red.pickle\n",
      "\n",
      "model_white:\n",
      "  type: pickle.PickleDataSet\n",
      "  filepath: data/06_models/model_white.pickle\n",
      "\n",
      "evaluation_metrics_red:\n",
      "  type: yaml.YAMLDataSet\n",
      "  filepath: data/08_reporting/scores_red.yaml\n",
      "    \n",
      "evaluation_metrics_white:\n",
      "  type: yaml.YAMLDataSet\n",
      "  filepath: data/08_reporting/scores_white.yaml"
    ],
    Cell.mk CellType.markdown [
      "Create dvc pipelines for red and white wine."
    ],
    Cell.mk CellType.code [
      "%%bash\n",
      "dvc run -n kedro_red \\\n",
      "        -p conf/base/parameters.yml:test_size,random_state,alpha,l1_ratio \\\n",
      "        -d data/01_raw/winequality-red.csv \\\n",
      "        -d src/workflow_tutorial/pipelines \\\n",
      "        -m data/08_reporting/scores_red.yaml \\\n",
      "        -o data/06_models/model_red.pickle \\\n",
      "        \x27kedro run -\x2dpipeline=red\x27"
    ],
    Cell.mk CellType.code [
      "%%bash\n",
      "dvc run -n kedro_white \\\n",
      "        -p conf/base/parameters.yml:test_size,random_state,alpha,l1_ratio \\\n",
      "        -d data/01_raw/winequality-white.csv \\\n",
      "        -d src/workflow_tutorial/pipelines \\\n",
      "        -m data/08_reporting/scores_white.yaml \\\n",
      "        -o data/06_models/model_white.pickle \\\n",
      "        \x27kedro run -\x2dpipeline=white\x27"
    ],
    Cell.mk CellType.markdown [
      "Commit your changes and update dvc remote storage."
    ],
    Cell.mk CellType.code [
      "!git add .\n",
      "!git commit -m \"add dvc pipelines\""
    ],
    Cell.mk CellType.code [
      "!dvc status -c"
    ],
    Cell.mk CellType.code [
      "!dvc push"
    ],
    Cell.mk CellType.markdown [
      "Everything should now be up to date.                                                       "
    ],
    Cell.mk CellType.code [
      "!git status\n",
      "!dvc status -c"
    ],
    Cell.mk CellType.code []
  ]
/-- All notebooks of the repository. -/
def repoNotebooks : List Notebook :=
  [airflowIntroduction, airflowExercise, dvcIntroduction,
   fastapiIntroduction, fastapiExercise, kedroExercise]

/-- Whether the first list of characters is a prefix of the second. -/
def leadsWith : List Char → List Char → Bool
  | [], _ => true
  | _ :: _, [] => false
  | p :: ps, c :: cs => p.toNat == c.toNat && leadsWith ps cs

/-- Whether the pattern occurs as a contiguous sublist of the second list. -/
def occursIn (pat : List Char) : List Char → Bool
  | [] => pat.isEmpty
  | c :: cs => leadsWith pat (c :: cs) || occursIn pat cs

/-- Character-exact string equality (by code points). -/
def charListEq : List Char → List Char → Bool
  | [], [] => true
  | a :: as, b :: bs => a.toNat == b.toNat && charListEq as bs
  | _, _ => false

/-- String equality by code points. -/
def strEq (a b : String) : Bool := charListEq a.data b.data

/-- Equality of string lists, element by element. -/
def listStrEq : List String → List String → Bool
  | [], [] => true
  | a :: as, b :: bs => strEq a b && listStrEq as bs
  | _, _ => false

/-- Cell equality: same cell type and identical source lines. -/
def cellEqB (a b : Cell) : Bool :=
  a.cellType == b.cellType && listStrEq a.source b.source

/-- Whether the string starts with the pattern. -/
def strStartsWith (s pat : String) : Bool := leadsWith pat.data s.data

/-- Whether the pattern occurs as a substring of the line. -/
def containsStr (l pat : String) : Bool := occursIn pat.data l.data

/-- A space or tab character, for stripping Python indentation. -/
def isSpaceChar (c : Char) : Bool := c.toNat == 32 || c.toNat == 9

/-- The characters of a line with leading spaces and tabs removed. -/
def trimLeadingSpace (s : String) : List Char := s.data.dropWhile isSpaceChar

/-- A line that is a shell invocation via the notebook bang syntax. -/
def lineIsShell (l : String) : Bool := strStartsWith l ("!")

/-- A cell whose first line is the %%bash or %%sh cell magic. -/
def cellMagicShell (src : List String) : Bool :=
  match src with
  | h :: _ => strStartsWith h ("%%bash") || strStartsWith h ("%%sh")
  | [] => false

/-- A code cell source that is a shell invocation in the sense of claim C1:
a %%bash or %%sh cell, or a nonempty cell all of whose lines start with the
bang. -/
def shellInvocationCell (src : List String) : Bool :=
  cellMagicShell src || (!src.isEmpty && src.all lineIsShell)

/-- The per-cell property asserted by claim C1 as stated: the cell is a
markdown cell or a shell-invocation code cell. -/
def cellSatisfiesC1 (c : Cell) : Bool :=
  c.cellType == CellType.markdown || shellInvocationCell c.source

/-- Claim C1 as stated, as a decidable check over the whole repository. -/
def claimC1asStated : Bool :=
  repoNotebooks.all (fun nb => nb.cells.all cellSatisfiesC1)

/-- The working-directory cell of the DVC introduction notebook (the cell
cited by claim C1): two plain Python statements executed in the kernel. -/
def chdirCellDvc : Cell :=
  Cell.mk CellType.code [("import os\n"), ("os.chdir(\"/workshop/workspace/dvc_intro\")")]

/-- A line starting with a bang or with a Python comment sign. -/
def shellOrCommentLine (l : String) : Bool :=
  strStartsWith l ("!") || strStartsWith l ("#")

/-- A cell whose first line is the %%writefile cell magic. -/
def writefileMagic (src : List String) : Bool :=
  match src with
  | h :: _ => strStartsWith h ("%%writefile")
  | [] => false

/-- First lines of the five plain-Python code cells of the repository: the
three import os / os.chdir working-directory cells, the evaluate_model
definition cell and the download_data definition cell. -/
def plainPythonFirstLines : List String :=
  [("import os\n"), ("from typing import Dict\n"), ("import pandas as pd\n")]

/-- A code cell holding plain Python, recognised by its first line. -/
def pythonSetupCell (src : List String) : Bool :=
  match src with
  | h :: _ => plainPythonFirstLines.any (fun p => strEq p h)
  | [] => false

/-- The per-cell property of the amended claim C1: markdown, or empty code,
or a %%bash/%%sh/%%writefile cell magic, or lines that are all shell
invocations or comments, or one of the five plain-Python cells. -/
def cellSatisfiesC1amended (c : Cell) : Bool :=
  c.cellType == CellType.markdown
    || c.source.isEmpty
    || cellMagicShell c.source
    || writefileMagic c.source
    || c.source.all shellOrCommentLine
    || pythonSetupCell c.source

/-- The code cells of the repository that hold plain Python. -/
def codeCellsWithPlainPython : List Cell :=
  (repoNotebooks.map (fun nb =>
    nb.cells.filter (fun c => c.cellType == CellType.code && pythonSetupCell c.source))).flatten

/-- Whether a command string occurs in some code cell of some notebook. -/
def shellCommandOccurs (cmd : String) : Bool :=
  repoNotebooks.any (fun nb => nb.cells.any (fun c =>
    c.cellType == CellType.code && c.source.any (fun l => containsStr l cmd)))

/-- The eight shell invocations named by the spec. -/
def specShellCommands : List String :=
  [("pip install"), ("airflow webserver"), ("dvc run"), ("dvc push"),
   ("git commit"), ("uvicorn"), ("kedro run"), ("kedro viz")]

/-- Whether some line of some cell of the notebook contains the pattern. -/
def notebookMentions (nb : Notebook) (pat : String) : Bool :=
  nb.cells.any (fun c => c.source.any (fun l => containsStr l pat))

/-- Whether the service mounts the named volume workspace at the container
path /workshop/workspace. -/
def sharesWorkspaceVolume (s : Service) : Bool :=
  s.volumes.any (fun v =>
    v.kind == MountKind.named && strEq v.source ("workspace")
      && strEq v.target ("/workshop/workspace"))

/-- A node of a pipeline dependency structure: its name, the names of its
declared inputs (dependencies) and of its declared outputs. -/
structure PipeNode where
  name : String
  inputs : List String
  outputs : List String
  deriving DecidableEq, BEq, Repr

/-- The download stage of the DVC pipeline (dvc run -n download): its -d
dependencies and its -o output. -/
def dvcDownload : PipeNode :=
  PipeNode.mk ("download")
    [("dvc_introduction.py"),
     ("http://archive.ics.uci.edu/ml/machine-learning-databases/wine-quality/winequality-red.csv")]
    [("data/winequality-red.csv")]

/-- The split stage of the DVC pipeline (dvc run -n split). -/
def dvcSplit : PipeNode :=
  PipeNode.mk ("split")
    [("dvc_introduction.py"), ("data/winequality-red.csv")]
    [("data/x_train.csv"), ("data/y_train.csv"), ("data/x_test.csv"), ("data/y_test.csv")]

/-- The train stage of the DVC pipeline (dvc run -n train). -/
def dvcTrain : PipeNode :=
  PipeNode.mk ("train")
    [("dvc_introduction.py"), ("data/x_train.csv"), ("data/y_train.csv")]
    [("data/model")]

/-- The evaluate stage of the DVC pipeline (dvc run -n evaluate); its -m
metrics file is its output. -/
def dvcEvaluate : PipeNode :=
  PipeNode.mk ("evaluate")
    [("dvc_introduction.py"), ("data/model"), ("data/x_test.csv"), ("data/y_test.csv")]
    [("data/result.json")]

/-- The four stages of the DVC pipeline built in the DVC notebook. -/
def dvcStages : List PipeNode := [dvcDownload, dvcSplit, dvcTrain, dvcEvaluate]

/-- The nodes of create_red_wine_pipeline in the Kedro exercise notebook. -/
def redWineNodes : List PipeNode :=
  [ PipeNode.mk ("splitting_red_wine_data")
      [("wines-red"), ("parameters")]
      [("x_train_red"), ("x_test_red"), ("y_train_red"), ("y_test_red")],
    PipeNode.mk ("training_red_wine_model")
      [("x_train_red"), ("y_train_red"), ("parameters")]
      [("model_red")],
    PipeNode.mk ("evaluating_red_wine_model")
      [("model_red"), ("x_test_red"), ("y_test_red")]
      [("evaluation_metrics_red")] ]

/-- The nodes of create_white_wine_pipeline in the Kedro exercise notebook. -/
def whiteWineNodes : List PipeNode :=
  [ PipeNode.mk ("download_white_wine_data")
      [("params:white_wine_data_url")]
      [("wines-white")],
    PipeNode.mk ("splitting_white_wine_data")
      [("wines-white"), ("parameters")]
      [("x_train_white"), ("x_test_white"), ("y_train_white"), ("y_test_white")],
    PipeNode.mk ("training_white_wine_model")
      [("x_train_white"), ("y_train_white"), ("parameters")]
      [("model_white")],
    PipeNode.mk ("evaluating_white_wine_model")
      [("model_white"), ("x_test_white"), ("y_test_white")]
      [("evaluation_metrics_white")] ]

/-- Dependency edge between pipeline nodes: v consumes an output of u. -/
def nodeEdge (u v : PipeNode) : Bool :=
  u.outputs.any (fun o => v.inputs.any (fun i => strEq i o))

/-- The two Airflow tasks connected in the Airflow notebooks. -/
def airflowTaskVars : List String := [("fs_task"), ("python_task")]

/-- The single ordering edge fs_task >> python_task of the Airflow notebooks. -/
def airflowEdgeList : List (String × String) := [((("fs_task") : String), ("python_task"))]

/-- Edge relation of the Airflow task ordering. -/
def airflowEdge (a b : String) : Bool :=
  airflowEdgeList.any (fun p => strEq p.fst a && strEq p.snd b)

/-- Bounded reachability: there is a nonempty edge path from a to b of length
at most fuel + 1 through vertices of vs. -/
def reachesIn {A : Type} (vs : List A) (e : A → A → Bool) : Nat → A → A → Bool
  | 0, a, b => e a b
  | Nat.succ f, a, b => e a b || vs.any (fun c => e a c && reachesIn vs e f c b)

/-- Acyclicity of the edge relation e on the vertex list vs: no vertex lies
on a nonempty cycle (any cycle yields one of length at most vs.length + 1,
every vertex of which lies in vs). -/
def acyclicOn {A : Type} (vs : List A) (e : A → A → Bool) : Bool :=
  vs.all (fun v => !(reachesIn vs e vs.length v v))

/-- The exact import line through which the Kedro pipeline files obtain the
Pipeline and node constructors. -/
def kedroImportLine : String := ("from kedro.pipeline import Pipeline, node\n")

/-- Whether a cell constructs a Pipeline or node value (syntactically: a call
of Pipeline or node occurs in its source). -/
def constructsKedroValue (c : Cell) : Bool :=
  c.source.any (fun l => containsStr l ("Pipeline(") || containsStr l ("node("))

/-- Whether a line defines a class or function named Pipeline or node. -/
def definesKedroName (l : String) : Bool :=
  containsStr l ("def Pipeline") || containsStr l ("class Pipeline")
    || containsStr l ("def node") || containsStr l ("class node")

/-- Whether a cell mentions the XCom push or pull operations. -/
def mentionsXcom (c : Cell) : Bool :=
  c.source.any (fun l => containsStr l ("xcom_push") || containsStr l ("xcom_pull"))

/-- Whether a cell carries a fenced python example code listing. -/
def hasPythonListingFence (c : Cell) : Bool :=
  c.source.any (fun l => containsStr l ("\x60\x60\x60python"))

/-- Provenance of a name called inside one of the repository's Python
functions, read off from the import statements and assignments of the
notebooks' code cells. -/
inductive CalleeKind where
  | thirdParty (library : String)
  | stdlibModule (module : String)
  | builtinFn
  | paramOrLocal (root : String)
  | repoFunction (fname : String)
  deriving DecidableEq, BEq, Repr

/-- Classification of every name called inside the repository's Python
functions, derived from the imports of the cells that define them. -/
def calleeClass : List (String × CalleeKind) :=
  [ (("pipe.predict"), CalleeKind.paramOrLocal ("pipe")),
    (("np.sqrt"), CalleeKind.thirdParty ("numpy")),
    (("mean_squared_error"), CalleeKind.thirdParty ("sklearn")),
    (("mean_absolute_error"), CalleeKind.thirdParty ("sklearn")),
    (("r2_score"), CalleeKind.thirdParty ("sklearn")),
    (("mlflow.log_metric"), CalleeKind.thirdParty ("mlflow")),
    (("logging.getLogger"), CalleeKind.stdlibModule ("logging")),
    (("logger.info"), CalleeKind.paramOrLocal ("logger")),
    (("float"), CalleeKind.builtinFn),
    (("pd.read_csv"), CalleeKind.thirdParty ("pandas")),
    (("Pipeline"), CalleeKind.thirdParty ("kedro")),
    (("node"), CalleeKind.thirdParty ("kedro")),
    (("ConfigLoader"), CalleeKind.thirdParty ("kedro")),
    (("DataCatalog.from_config"), CalleeKind.thirdParty ("kedro")),
    (("pipeline.create_red_wine_pipeline"), CalleeKind.repoFunction ("create_red_wine_pipeline")),
    (("pipeline.create_white_wine_pipeline"), CalleeKind.repoFunction ("create_white_wine_pipeline")) ]

/-- Lookup of a callee name in the classification table. -/
def lookupCallee : List (String × CalleeKind) → String → Option CalleeKind
  | [], _ => none
  | (k, v) :: rest, n => if strEq k n then some v else lookupCallee rest n

/-- Summary of a Python function defined in a code cell: its name and
parameters, every call occurring in its body in source order, and counts of
loop statements and class definitions in its body. -/
structure PyFunction where
  name : String
  params : List String
  callees : List String
  loopCount : Nat
  classDefCount : Nat
  deriving DecidableEq, BEq, Repr

/-- Every Python function defined in the repository's code cells (including
the methods of the one class, ProjectHooks), summarised from the source. -/
def repoPyFunctions : List PyFunction :=
  [ PyFunction.mk ("evaluate_model") [("pipe"), ("x_test"), ("y_test")]
      [("pipe.predict"), ("np.sqrt"), ("mean_squared_error"), ("mean_absolute_error"),
       ("r2_score"), ("mlflow.log_metric"), ("mlflow.log_metric"), ("mlflow.log_metric"),
       ("logging.getLogger"), ("logger.info"), ("float"), ("float"), ("float")] 0 0,
    PyFunction.mk ("download_data") [("url")]
      [("pd.read_csv"), ("logging.getLogger"), ("logger.info")] 0 0,
    PyFunction.mk ("create_pipeline") [("**kwargs")]
      [("Pipeline"), ("node"), ("node"), ("node")] 0 0,
    PyFunction.mk ("create_red_wine_pipeline") [("**kwargs")]
      [("Pipeline"), ("node"), ("node"), ("node")] 0 0,
    PyFunction.mk ("create_white_wine_pipeline") [("**kwargs")]
      [("Pipeline"), ("node"), ("node"), ("node"), ("node")] 0 0,
    PyFunction.mk ("register_pipelines") [("self")]
      [("pipeline.create_red_wine_pipeline"), ("pipeline.create_white_wine_pipeline")] 0 0,
    PyFunction.mk ("register_config_loader") [("self"), ("conf_paths")]
      [("ConfigLoader")] 0 0,
    PyFunction.mk ("register_catalog")
      [("self"), ("catalog"), ("credentials"), ("load_versions"), ("save_version"), ("journal")]
      [("DataCatalog.from_config")] 0 0 ]

/-- The third-party libraries named by the spec sentence behind claim C3. -/
def specThirdPartyLibs : List String :=
  [("sklearn"), ("numpy"), ("pandas"), ("mlflow"), ("kedro")]

/-- A callee that directly is a spec-listed third-party call, a standard
library call, a builtin, or a method of a parameter or local object. -/
def calleeDirectOk (c : String) : Bool :=
  match lookupCallee calleeClass c with
  | some (CalleeKind.thirdParty lib) => specThirdPartyLibs.any (fun t => strEq t lib)
  | some (CalleeKind.stdlibModule _) => true
  | some CalleeKind.builtinFn => true
  | some (CalleeKind.paramOrLocal _) => true
  | some (CalleeKind.repoFunction _) => false
  | none => false

/-- A callee that is directly acceptable, or a repository function whose own
callees are all directly acceptable. -/
def calleeOk (c : String) : Bool :=
  calleeDirectOk c ||
    (match lookupCallee calleeClass c with
     | some (CalleeKind.repoFunction f) =>
         repoPyFunctions.any (fun g => strEq g.name f && g.callees.all calleeDirectOk)
     | _ => false)

/-- A function that is thin glue: a straight-line body (no loops, no class
definitions) all of whose calls are acceptable in the sense of calleeOk. -/
def pyFunctionIsThinGlue (f : PyFunction) : Bool :=
  f.loopCount == 0 && f.classDefCount == 0 && f.callees.all calleeOk

/-- Whether a source line, if it is a def line, defines one of the summarised
repository functions. -/
def defLineMatchesKnownFunction (l : String) : Bool :=
  !(leadsWith ("def ").data (trimLeadingSpace l)) ||
    repoPyFunctions.any (fun f =>
      leadsWith (String.append (String.append ("def ") f.name) ("(")).data (trimLeadingSpace l))

/-- Values of the straight-line Python semantics used for evaluate_model.
External library calls are uninterpreted: a call produces a value recording
the called name and the argument values; dict and string literals are
recorded structurally; obj stands for an arbitrary input object. -/
inductive PVal where
  | obj (id : Nat)
  | strV (s : String)
  | callV1 (fn : String) (a : PVal)
  | callV2 (fn : String) (a b : PVal)
  | dictV1 (k : String) (v : PVal)
  | dictV3 (k1 : String) (v1 : PVal) (k2 : String) (v2 : PVal) (k3 : String) (v3 : PVal)
  deriving DecidableEq, BEq, Repr

/-- Expressions of the straight-line Python fragment used by evaluate_model:
name references, string literals, calls of dotted names with one or two
arguments, and dict literals with one or three entries. -/
inductive PExpr where
  | nameRef (s : String)
  | strLit (s : String)
  | call1 (fn : String) (a : PExpr)
  | call2 (fn : String) (a b : PExpr)
  | dict1 (k : String) (v : PExpr)
  | dict3 (k1 : String) (v1 : PExpr) (k2 : String) (v2 : PExpr) (k3 : String) (v3 : PExpr)
  deriving DecidableEq, BEq, Repr

/-- Statements of the straight-line Python fragment. -/
inductive PStmt where
  | assign (target : String) (e : PExpr)
  | exprStmt (e : PExpr)
  | ret (e : PExpr)
  deriving DecidableEq, BEq, Repr

/-- The root of a dotted name: the identifier whose binding Python looks up
when the dotted name is evaluated (the characters before the first dot). -/
def takeUntilDot : List Char → List Char
  | [] => []
  | c :: cs => if c.toNat == 46 then [] else c :: takeUntilDot cs

/-- The root identifier of a possibly dotted name. -/
def rootName (s : String) : String := String.mk (takeUntilDot s.data)

/-- Lookup of a name in an environment of bindings. -/
def lookupName : List (String × PVal) → String → Option PVal
  | [], _ => none
  | (k, v) :: rest, n => if strEq k n then some v else lookupName rest n

/-- Evaluation of an expression: referencing a name whose root is unbound
raises NameError (returned as Except.error with the missing name); external
calls succeed and build uninterpreted call values. As in Python, the
function part of a call is resolved before its arguments are evaluated. -/
def evalExpr (env : List (String × PVal)) : PExpr → Except String PVal
  | PExpr.nameRef s =>
      match lookupName env s with
      | some v => Except.ok v
      | none => Except.error s
  | PExpr.strLit s => Except.ok (PVal.strV s)
  | PExpr.call1 fn a =>
      match lookupName env (rootName fn) with
      | none => Except.error (rootName fn)
      | some _ =>
          match evalExpr env a with
          | Except.ok va => Except.ok (PVal.callV1 fn va)
          | Except.error m => Except.error m
  | PExpr.call2 fn a b =>
      match lookupName env (rootName fn) with
      | none => Except.error (rootName fn)
      | some _ =>
          match evalExpr env a with
          | Except.ok va =>
              match evalExpr env b with
              | Except.ok vb => Except.ok (PVal.callV2 fn va vb)
              | Except.error m => Except.error m
          | Except.error m => Except.error m
  | PExpr.dict1 k v =>
      match evalExpr env v with
      | Except.ok vv => Except.ok (PVal.dictV1 k vv)
      | Except.error m => Except.error m
  | PExpr.dict3 k1 v1 k2 v2 k3 v3 =>
      match evalExpr env v1 with
      | Except.ok w1 =>
          match evalExpr env v2 with
          | Except.ok w2 =>
              match evalExpr env v3 with
              | Except.ok w3 => Except.ok (PVal.dictV3 k1 w1 k2 w2 k3 w3)
              | Except.error m => Except.error m
          | Except.error m => Except.error m
      | Except.error m => Except.error m

/-- Running a statement list: assignments extend the environment, expression
statements are evaluated for effect, return stops with the returned value;
a raised NameError propagates. -/
def runStmts : List (String × PVal) → List PStmt → Except String (Option PVal)
  | _, [] => Except.ok none
  | env, PStmt.assign t e :: rest =>
      match evalExpr env e with
      | Except.ok v => runStmts ((t, v) :: env) rest
      | Except.error m => Except.error m
  | env, PStmt.exprStmt e :: rest =>
      match evalExpr env e with
      | Except.ok _ => runStmts env rest
      | Except.error m => Except.error m
  | env, PStmt.ret e :: _ =>
      match evalExpr env e with
      | Except.ok v => Except.ok (some v)
      | Except.error m => Except.error m

/-- The body of evaluate_model, statement by statement as written in its
code cell of the Kedro exercise notebook. -/
def evaluateModelBody : List PStmt :=
  [ PStmt.assign ("y_pred") (PExpr.call1 ("pipe.predict") (PExpr.nameRef ("x_test"))),
    PStmt.assign ("rmse") (PExpr.call1 ("np.sqrt")
      (PExpr.call2 ("mean_squared_error") (PExpr.nameRef ("y_test")) (PExpr.nameRef ("y_pred")))),
    PStmt.assign ("mae")
      (PExpr.call2 ("mean_absolute_error") (PExpr.nameRef ("y_test")) (PExpr.nameRef ("y_pred"))),
    PStmt.assign ("r2")
      (PExpr.call2 ("r2_score") (PExpr.nameRef ("y_test")) (PExpr.nameRef ("y_pred"))),
    PStmt.exprStmt (PExpr.call2 ("mlflow.log_metric") (PExpr.strLit ("rmse")) (PExpr.nameRef ("rmse"))),
    PStmt.exprStmt (PExpr.call2 ("mlflow.log_metric") (PExpr.strLit ("mae")) (PExpr.nameRef ("mae"))),
    PStmt.exprStmt (PExpr.call2 ("mlflow.log_metric") (PExpr.strLit ("r2")) (PExpr.nameRef ("r2"))),
    PStmt.assign ("logger") (PExpr.call1 ("logging.getLogger") (PExpr.nameRef ("__name__"))),
    PStmt.exprStmt (PExpr.call2 ("logger.info")
      (PExpr.strLit ("Model has a coefficient R^2 of %.3f.")) (PExpr.nameRef ("r2"))),
    PStmt.ret (PExpr.dict1 ("train") (PExpr.dict3
      ("rmse") (PExpr.call1 ("float") (PExpr.nameRef ("rmse")))
      ("mae") (PExpr.call1 ("float") (PExpr.nameRef ("mae")))
      ("r2") (PExpr.call1 ("float") (PExpr.nameRef ("r2"))))) ]

/-- The environment in which the exercise cell's evaluate_model runs when
called directly after executing only that cell: its three parameters, the
names the cell itself imports, and the relevant builtins. Neither mlflow nor
logging is bound. -/
def exerciseCellEnv (pipe x_test y_test : PVal) : List (String × PVal) :=
  [ (("pipe"), pipe), (("x_test"), x_test), (("y_test"), y_test),
    (("Dict"), PVal.obj 0), (("np"), PVal.obj 1), (("Pipeline"), PVal.obj 2),
    (("mean_squared_error"), PVal.obj 3), (("mean_absolute_error"), PVal.obj 4),
    (("r2_score"), PVal.obj 5),
    (("float"), PVal.obj 6), (("__name__"), PVal.strV ("__main__")) ]

/-- The environment after the function is added to nodes.py with the needed
imports: the exercise cell environment extended with bindings for mlflow and
logging. -/
def nodesEnv (pipe x_test y_test : PVal) : List (String × PVal) :=
  (("mlflow"), PVal.obj 7) :: (("logging"), PVal.obj 8) :: exerciseCellEnv pipe x_test y_test

/-- The root names referenced by an expression, in evaluation order. -/
def exprNames : PExpr → List String
  | PExpr.nameRef s => [s]
  | PExpr.strLit _ => []
  | PExpr.call1 fn a => rootName fn :: exprNames a
  | PExpr.call2 fn a b => rootName fn :: (exprNames a ++ exprNames b)
  | PExpr.dict1 _ v => exprNames v
  | PExpr.dict3 _ v1 _ v2 _ v3 => exprNames v1 ++ exprNames v2 ++ exprNames v3

/-- The root names referenced by a statement. -/
def stmtNames : PStmt → List String
  | PStmt.assign _ e => exprNames e
  | PStmt.exprStmt e => exprNames e
  | PStmt.ret e => exprNames e

/-- All root names referenced by the body of evaluate_model. -/
def evaluateModelReferencedNames : List String :=
  (evaluateModelBody.map stmtNames).flatten

/-- C1 (counterexample): the claim that every cell is a markdown cell or a
shell-invocation code cell is false for the repository: the working-directory
cell of the DVC introduction notebook is a code cell made of the plain Python
statements import os and os.chdir, so the repository-wide check evaluates to
false at that explicit cell. -/
theorem c1_counterexample :
    (claimC1asStated = false)
    ∧ (dvcIntroduction.cells.any (fun c => cellEqB c chdirCellDvc) = true)
    ∧ (chdirCellDvc.cellType = CellType.code)
    ∧ (cellSatisfiesC1 chdirCellDvc = false) := by
  refine ⟨by decide, by decide, rfl, by decide⟩

/-- C1 (amended): every cell of every notebook is a markdown cell or a code
cell that is empty, a %%bash/%%sh/%%writefile cell-magic cell, made only of
lines starting with a bang or a comment sign, or one of exactly five
plain-Python cells (three import os / os.chdir working-directory cells and
the evaluate_model and download_data function-definition cells). -/
theorem c1_amended_every_cell_classified :
    (repoNotebooks.all (fun nb => nb.cells.all cellSatisfiesC1amended) = true)
    ∧ (codeCellsWithPlainPython.length = 5) := by
  refine ⟨by decide, by decide⟩

/-- C2: the docker-compose file defines exactly the two services jupyter and
airflow, each pulling the one stated image; jupyter forwards host ports 8888,
4141, 5000 and 7777, airflow forwards host port 8080, each service mounts at
least one volume, and there is no other service. -/
theorem c2_docker_compose_two_services :
    (dockerComposeServices.map Service.name = [("jupyter"), ("airflow")])
    ∧ (jupyterService.image = ("radtkem/from-jupyter-to-production-baseimage:latest"))
    ∧ (airflowService.image = ("radtkem/from-jupyter-to-production-airflow-image:latest"))
    ∧ (jupyterService.ports.map Prod.fst = [8888, 4141, 5000, 7777])
    ∧ (airflowService.ports.map Prod.fst = [8080])
    ∧ (dockerComposeServices.all (fun s => !s.ports.isEmpty && !s.volumes.isEmpty) = true) := by
  refine ⟨rfl, rfl, rfl, rfl, rfl, rfl⟩

/-- C3: every Python function defined in the notebooks has a straight-line
body (no loops, no class definitions) whose every call is a call into the
spec-listed third-party libraries, the standard logging module, a Python
builtin, a method of a parameter or local object, or another of these
repository functions whose calls are in turn all of that direct kind;
moreover no code-cell line starts a for or while loop, the only class
defined in the repository is ProjectHooks, and every def line in a code cell
defines one of the summarised functions. -/
theorem c3_functions_are_thin_glue :
    (repoPyFunctions.all pyFunctionIsThinGlue = true)
    ∧ (repoNotebooks.all (fun nb => nb.cells.all (fun c =>
        c.cellType == CellType.markdown || c.source.all (fun l =>
          !(leadsWith ("for ").data (trimLeadingSpace l)) && !(leadsWith ("while ").data (trimLeadingSpace l))))) = true)
    ∧ (repoNotebooks.all (fun nb => nb.cells.all (fun c =>
        c.cellType == CellType.markdown || c.source.all (fun l =>
          !(leadsWith ("class ").data (trimLeadingSpace l)) || strEq l ("class ProjectHooks:\n")))) = true)
    ∧ (repoNotebooks.all (fun nb => nb.cells.all (fun c =>
        c.cellType == CellType.markdown || c.source.all defLineMatchesKnownFunction)) = true) := by
  refine ⟨by decide, by decide, by decide, by decide⟩

/-- C4: each of the eight shell invocations named by the spec (pip install,
airflow webserver, dvc run, dvc push, git commit, uvicorn, kedro run, kedro
viz) occurs in at least one code cell of some notebook of the repository. -/
theorem c4_spec_shell_commands_occur :
    specShellCommands.all shellCommandOccurs = true := by decide

/-- C5: the pipeline dependency structures defined in the notebooks are
acyclic: the DVC stage graph (in which download feeds split, split feeds
train and train feeds evaluate through declared outputs and dependencies),
the Kedro red-wine and white-wine node graphs, and the Airflow ordering
fs_task >> python_task all contain no cycle. -/
theorem c5_pipeline_dependency_structures_acyclic :
    (nodeEdge dvcDownload dvcSplit = true)
    ∧ (nodeEdge dvcSplit dvcTrain = true)
    ∧ (nodeEdge dvcTrain dvcEvaluate = true)
    ∧ (acyclicOn dvcStages nodeEdge = true)
    ∧ (acyclicOn redWineNodes nodeEdge = true)
    ∧ (acyclicOn whiteWineNodes nodeEdge = true)
    ∧ (acyclicOn airflowTaskVars airflowEdge = true) := by
  refine ⟨by decide, by decide, by decide, by decide, by decide, by decide, by decide⟩

/-- C6: no line of any cell defines a class or function named Pipeline or
node, and every cell that constructs a Pipeline or node value is a code cell
containing the import line from kedro.pipeline import Pipeline, node; such
constructing cells exist in the Kedro exercise notebook. -/
theorem c6_kedro_constructors_are_external :
    (repoNotebooks.all (fun nb => nb.cells.all (fun c =>
        c.source.all (fun l => !(definesKedroName l)))) = true)
    ∧ (repoNotebooks.all (fun nb => nb.cells.all (fun c =>
        !(constructsKedroValue c)
          || (c.cellType == CellType.code && c.source.any (fun l => strEq l kedroImportLine)))) = true)
    ∧ (kedroExercise.cells.any constructsKedroValue = true) := by
  refine ⟨by decide, by decide, by decide⟩

/-- C7: every cell mentioning xcom_push or xcom_pull is a markdown cell of
one of the two Airflow notebooks and carries a fenced python example
listing; such cells do occur in both Airflow notebooks; and no code cell of
any notebook mentions xcom at all (in particular nothing in the repository
defines or implements the push-pull channel). -/
theorem c7_xcom_only_demonstrated_in_markdown :
    (repoNotebooks.all (fun nb => nb.cells.all (fun c =>
        !(mentionsXcom c)
          || (c.cellType == CellType.markdown
                && hasPythonListingFence c
                && (strEq nb.name airflowIntroduction.name || strEq nb.name airflowExercise.name)))) = true)
    ∧ ((airflowIntroduction.cells.any mentionsXcom && airflowExercise.cells.any mentionsXcom) = true)
    ∧ (repoNotebooks.all (fun nb => nb.cells.all (fun c =>
        c.cellType == CellType.markdown
          || c.source.all (fun l => !(containsStr l ("xcom"))))) = true) := by
  refine ⟨by decide, by decide, by decide⟩

/-- C8: both docker-compose services mount the named volume workspace at the
identical container path /workshop/workspace, workspace is the declared
named volume, and the notebook paths /workshop/workspace/workflow-tutorial
and /workshop/workspace/dvc_intro, which do occur in the Kedro exercise and
DVC introduction notebooks, lie under that shared mount target. -/
theorem c8_shared_workspace_volume :
    (sharesWorkspaceVolume jupyterService = true)
    ∧ (sharesWorkspaceVolume airflowService = true)
    ∧ (namedVolumes = [("workspace")])
    ∧ (notebookMentions kedroExercise ("/workshop/workspace/workflow-tutorial") = true)
    ∧ (notebookMentions dvcIntroduction ("/workshop/workspace/dvc_intro") = true)
    ∧ (strStartsWith ("/workshop/workspace/workflow-tutorial") ("/workshop/workspace") = true)
    ∧ (strStartsWith ("/workshop/workspace/dvc_intro") ("/workshop/workspace") = true) := by
  refine ⟨by decide, by decide, rfl, by decide, by decide, by decide, by decide⟩

/-- C9: for every input pipe, x_test, y_test, running evaluate_model exactly
as defined in its exercise code cell raises NameError before returning (the
run stops with the unbound name mlflow), because mlflow and logging are
referenced in the body but bound nowhere in that cell's environment. -/
theorem c9_evaluate_model_raises_name_error (pipe x_test y_test : PVal) :
    (runStmts (exerciseCellEnv pipe x_test y_test) evaluateModelBody
        = Except.error ("mlflow"))
    ∧ (lookupName (exerciseCellEnv pipe x_test y_test) ("mlflow") = none)
    ∧ (lookupName (exerciseCellEnv pipe x_test y_test) ("logging") = none)
    ∧ ((evaluateModelReferencedNames.any (fun n => strEq n ("mlflow"))
          && evaluateModelReferencedNames.any (fun n => strEq n ("logging"))) = true) := by
  refine ⟨rfl, rfl, rfl, rfl⟩

/-- C10: with mlflow and logging bound (as in nodes.py with the needed
imports) and all library calls succeeding, every call of evaluate_model
returns a dict whose only top-level key is train, mapping to a dict with
exactly the keys rmse, mae and r2, each a float cast of a metric that is
computed from y_test and from the predictions on x_test. -/
theorem c10_evaluate_model_returns_train_metrics (pipe x_test y_test : PVal) :
    runStmts (nodesEnv pipe x_test y_test) evaluateModelBody
      = Except.ok (some (PVal.dictV1 ("train") (PVal.dictV3
          ("rmse") (PVal.callV1 ("float") (PVal.callV1 ("np.sqrt")
            (PVal.callV2 ("mean_squared_error") y_test
              (PVal.callV1 ("pipe.predict") x_test))))
          ("mae") (PVal.callV1 ("float")
            (PVal.callV2 ("mean_absolute_error") y_test
              (PVal.callV1 ("pipe.predict") x_test)))
          ("r2") (PVal.callV1 ("float")
            (PVal.callV2 ("r2_score") y_test
              (PVal.callV1 ("pipe.predict") x_test)))))) := by
  rfl

end Workshop
